import Mathlib

/-!
Shallow embedding of the fleet-management service in `src/main.py`
(FastAPI + SQLAlchemy, single file).

Modelling conventions:
* the three SQLAlchemy tables (`fm_vehicles`, `fm_maintenances`, `fm_part_orders`)
  become Lean structures; the database session becomes an explicit `DB` record
  holding the three row lists in insertion (primary-key) order;
* `datetime.utcnow()` becomes an explicit `now : Nat` tick passed to each handler;
* SQLAlchemy autoincrement primary keys become `max existing id + 1`;
* `Float` (`total_amount`) carries no arithmetic in the code (pure pass-through),
  so it is modelled as `Rat`;
* `HTTPException(code, detail)` becomes an `Except HTTPException` result;
* the outbound webhook (`requests.post` inside `trigger_sync`) becomes an
  oracle `SyncResult` describing how the network call would have gone;
  the handler threads it through `trigger_sync` exactly where the code calls it.
-/

namespace FleetMgmt

/-- `class MaintenanceStatus(IntEnum)` in `src/main.py`: the integer codes are a
fixed wire contract, so they are kept as plain naturals. -/
def MaintenanceStatus.IN_PROGRESS : Nat := 1

def MaintenanceStatus.WAITING_FOR_PARTS : Nat := 2

def MaintenanceStatus.COMPLETED : Nat := 3

/-- Row of table `fm_vehicles` (`VehicleModel`). -/
structure Vehicle where
  id : Nat
  vin : String
  color : String
  make : String
  model : String
  year : Int
  is_active : Bool
  is_deleted : Bool
  last_service_date : Option Nat
deriving Repr, DecidableEq

/-- Row of table `fm_maintenances` (`MaintenanceModel`). -/
structure Maintenance where
  id : Nat
  vehicle_id : Nat
  technician : String
  maintenance_type_id : Int
  status_id : Nat
  notes_open : Option String
  notes_close : Option String
  created_on : Nat
  completed_on : Option Nat
deriving Repr, DecidableEq

/-- Row of table `fm_part_orders` (`PartOrderModel`); `total_amount` is a
`Float` column used only as an opaque pass-through value, modelled as `Rat`. -/
structure PartOrder where
  id : Nat
  maintenance_id : Nat
  purchase_card_num : String
  total_amount : Rat
  purchased_on : Nat
  installed_on : Option Nat
deriving Repr, DecidableEq

/-- The database state: the three tables, rows in insertion order. -/
structure DB where
  vehicles : List Vehicle
  maintenances : List Maintenance
  part_orders : List PartOrder
deriving Repr, DecidableEq

/-- `raise HTTPException(status_code, detail)`. -/
structure HTTPException where
  status_code : Nat
  detail : String
deriving Repr, DecidableEq

/-- `db.query(VehicleModel).filter(VehicleModel.id == vid).first()`. -/
def findVehicle (db : DB) (vid : Nat) : Option Vehicle :=
  db.vehicles.find? (fun v => v.id == vid)

/-- `db.query(MaintenanceModel).filter(MaintenanceModel.id == mid).first()`. -/
def findMaintenance (db : DB) (mid : Nat) : Option Maintenance :=
  db.maintenances.find? (fun m => m.id == mid)

/-- Committing a mutated vehicle row: every stored row with the same primary
key is replaced by the new value. -/
def updateVehicle (db : DB) (v : Vehicle) : DB :=
  { db with vehicles := db.vehicles.map (fun w => if w.id == v.id then v else w) }

/-- Committing a mutated maintenance row. -/
def updateMaintenance (db : DB) (m : Maintenance) : DB :=
  { db with maintenances := db.maintenances.map (fun w => if w.id == m.id then m else w) }

/-- Autoincrement primary key for `fm_vehicles`. -/
def nextVehicleId (db : DB) : Nat :=
  (db.vehicles.map Vehicle.id).foldr Nat.max 0 + 1

/-- Autoincrement primary key for `fm_maintenances`. -/
def nextMaintenanceId (db : DB) : Nat :=
  (db.maintenances.map Maintenance.id).foldr Nat.max 0 + 1

/-- Autoincrement primary key for `fm_part_orders`. -/
def nextPartOrderId (db : DB) : Nat :=
  (db.part_orders.map PartOrder.id).foldr Nat.max 0 + 1

/-- How the outbound `requests.post` to the Appian webhook would have gone. -/
inductive SyncResult where
  | ok
  | non2xxResponse
  | networkError
  | timeout
deriving Repr, DecidableEq

/-- The bare `requests.post(APPIAN_SYNC_URL, ...)` call in `trigger_sync`:
network error and timeout raise; a non-success HTTP response does not raise
(the code never inspects the response, there is no `raise_for_status`). -/
def requests_post : SyncResult → Except String Unit
  | SyncResult.ok => Except.ok ()
  | SyncResult.non2xxResponse => Except.ok ()
  | SyncResult.networkError => Except.error "requests.exceptions.ConnectionError"
  | SyncResult.timeout => Except.error "requests.exceptions.Timeout"

/-- The JSON payload assembled by `trigger_sync`. -/
structure SyncPayload where
  vehicleIds : List Nat
  maintenanceIds : List Nat
  partOrderIds : List Nat
deriving Repr, DecidableEq

/-- Payload construction in `trigger_sync`: `if vehicle_id: payload[...] = [vehicle_id]`
etc.; Python truthiness drops both `None` and `0`. -/
def mkSyncPayload (vehicle_id maintenance_id part_order_id : Option Nat) : SyncPayload where
  vehicleIds := match vehicle_id with
    | some v => if v ≠ 0 then [v] else []
    | none => []
  maintenanceIds := match maintenance_id with
    | some m => if m ≠ 0 then [m] else []
    | none => []
  partOrderIds := match part_order_id with
    | some p => if p ≠ 0 then [p] else []
    | none => []

/-- `trigger_sync` in `src/main.py` lines 211-228.  The result type records
what escapes the function: `if not payload: return` short-circuits, and the
`try/except Exception` around `requests.post` prints and swallows every
failure, so the function always returns normally. -/
def trigger_sync (outcome : SyncResult)
    (vehicle_id maintenance_id part_order_id : Option Nat) : Except String Unit :=
  let payload := mkSyncPayload vehicle_id maintenance_id part_order_id
  if payload.vehicleIds.isEmpty && payload.maintenanceIds.isEmpty
      && payload.partOrderIds.isEmpty then
    Except.ok ()
  else
    match requests_post outcome with
    | Except.ok _ => Except.ok ()
    | Except.error _ => Except.ok ()

/-- `class CreateVehicleRequest(BaseModel)`: all five fields are declared with
no default, hence all five are required by pydantic validation. -/
structure CreateVehicleRequest where
  vin : String
  color : String
  make : String
  model : String
  year : Int
deriving Repr, DecidableEq

/-- A raw JSON body for `POST /vehicles/`, before pydantic validation: each
field either present or absent. -/
structure RawCreateVehicleInput where
  vin : Option String
  color : Option String
  make : Option String
  model : Option String
  year : Option Int
deriving Repr, DecidableEq

/-- Pydantic validation of `CreateVehicleRequest`: a field with no declared
default is required, so the body parses exactly when all five fields are
present. -/
def CreateVehicleRequest.validate (raw : RawCreateVehicleInput) :
    Option CreateVehicleRequest :=
  match raw.vin, raw.color, raw.make, raw.model, raw.year with
  | some vin, some color, some make, some model, some year =>
      some ⟨vin, color, make, model, year⟩
  | _, _, _, _, _ => none

/-- `class StartMaintenanceRequest(BaseModel)`. -/
structure StartMaintenanceRequest where
  vehicleId : Nat
  technician : String
  maintenanceTypeId : Int
  notesOpen : Option String
deriving Repr, DecidableEq

/-- `class CompleteMaintenanceRequest(BaseModel)`. -/
structure CompleteMaintenanceRequest where
  notesClose : Option String
deriving Repr, DecidableEq

/-- `class OrderPartsRequest(BaseModel)`. -/
structure OrderPartsRequest where
  maintenanceId : Nat
  purchaseCardNum : String
  totalAmount : Rat
deriving Repr, DecidableEq

/-- `POST /vehicles/` (`create_vehicle`, lines 321-336): insert a new vehicle
with `is_active=True, is_deleted=False`, commit, trigger sync, return it. -/
def create_vehicle (req : CreateVehicleRequest) (db : DB) (outcome : SyncResult) :
    Vehicle × DB :=
  let new_vehicle : Vehicle :=
    { id := nextVehicleId db
      vin := req.vin
      color := req.color
      make := req.make
      model := req.model
      year := req.year
      is_active := true
      is_deleted := false
      last_service_date := none }
  let db := { db with vehicles := db.vehicles ++ [new_vehicle] }
  let _ := trigger_sync outcome (some new_vehicle.id) none none
  (new_vehicle, db)

/-- `PUT /vehicles/{vehicle_id}/retire` (`retire_vehicle`, lines 338-347):
404 if the id does not resolve, otherwise set `is_deleted=True`,
`is_active=False`, commit, trigger sync, return the vehicle. -/
def retire_vehicle (vehicle_id : Nat) (db : DB) (outcome : SyncResult) :
    Except HTTPException (Vehicle × DB) :=
  match findVehicle db vehicle_id with
  | none => Except.error ⟨404, "Vehicle not found"⟩
  | some vehicle =>
      let vehicle := { vehicle with is_deleted := true, is_active := false }
      let db := updateVehicle db vehicle
      let _ := trigger_sync outcome (some vehicle.id) none none
      Except.ok (vehicle, db)

/-- `POST /maintenance/start` (`start_maintenance`, lines 349-367): 404 if the
vehicle id does not resolve; otherwise insert a new in-progress maintenance
row, set the vehicle inactive, commit both, trigger sync, return the row.
There is no check on the vehicle's `is_active` or `is_deleted` flags. -/
def start_maintenance (req : StartMaintenanceRequest) (now : Nat) (db : DB)
    (outcome : SyncResult) : Except HTTPException (Maintenance × DB) :=
  match findVehicle db req.vehicleId with
  | none => Except.error ⟨404, "Vehicle not found"⟩
  | some vehicle =>
      let new_maint : Maintenance :=
        { id := nextMaintenanceId db
          vehicle_id := req.vehicleId
          technician := req.technician
          maintenance_type_id := req.maintenanceTypeId
          status_id := MaintenanceStatus.IN_PROGRESS
          notes_open := req.notesOpen
          notes_close := none
          created_on := now
          completed_on := none }
      let vehicle := { vehicle with is_active := false }
      let db := { db with maintenances := db.maintenances ++ [new_maint] }
      let db := updateVehicle db vehicle
      let _ := trigger_sync outcome none (some new_maint.id) none
      Except.ok (new_maint, db)

/-- `POST /maintenance/parts` (`order_parts`, lines 369-386): 404 if the
maintenance id does not resolve; otherwise insert a new part order, and set
the maintenance status to WAITING_FOR_PARTS unless it is COMPLETED, commit,
trigger sync, return the order. -/
def order_parts (req : OrderPartsRequest) (now : Nat) (db : DB)
    (outcome : SyncResult) : Except HTTPException (PartOrder × DB) :=
  match findMaintenance db req.maintenanceId with
  | none => Except.error ⟨404, "Maintenance record not found"⟩
  | some maint =>
      let new_order : PartOrder :=
        { id := nextPartOrderId db
          maintenance_id := req.maintenanceId
          purchase_card_num := req.purchaseCardNum
          total_amount := req.totalAmount
          purchased_on := now
          installed_on := none }
      let db := { db with part_orders := db.part_orders ++ [new_order] }
      let db :=
        if maint.status_id ≠ MaintenanceStatus.COMPLETED then
          updateMaintenance db { maint with status_id := MaintenanceStatus.WAITING_FOR_PARTS }
        else db
      let _ := trigger_sync outcome none none (some new_order.id)
      Except.ok (new_order, db)

/-- `PUT /maintenance/{maintenance_id}/complete` (`complete_maintenance`,
lines 388-405): 404 if the maintenance id does not resolve; otherwise set
status COMPLETED, `completed_on = now`, store `notesClose`; if the owning
vehicle id resolves, set that vehicle `is_active=True` and
`last_service_date = now` (its `is_deleted` flag is not touched); if the
vehicle does not resolve, `if vehicle:` skips the vehicle update and the
call still succeeds. -/
def complete_maintenance (maintenance_id : Nat) (req : CompleteMaintenanceRequest)
    (now : Nat) (db : DB) (outcome : SyncResult) :
    Except HTTPException (Maintenance × DB) :=
  match findMaintenance db maintenance_id with
  | none => Except.error ⟨404, "Maintenance record not found"⟩
  | some maint =>
      let vehicle? := findVehicle db maint.vehicle_id
      let maint := { maint with
        status_id := MaintenanceStatus.COMPLETED
        completed_on := some now
        notes_close := req.notesClose }
      let db := updateMaintenance db maint
      let db :=
        match vehicle? with
        | some vehicle =>
            updateVehicle db { vehicle with is_active := true, last_service_date := some now }
        | none => db
      let _ := trigger_sync outcome none (some maint.id) none
      Except.ok (maint, db)

/-- `str.split(",")` on the character list: splits at every comma, keeping
empty pieces (Python semantics). -/
def splitOnComma : List Char → List Char → List (List Char)
  | [], acc => [acc.reverse]
  | c :: cs, acc =>
      if c = ',' then acc.reverse :: splitOnComma cs []
      else splitOnComma cs (c :: acc)

/-- `str.strip()` restricted to what `int()` ignores: surrounding
whitespace. -/
def trimChars (cs : List Char) : List Char :=
  ((cs.dropWhile Char.isWhitespace).reverse.dropWhile Char.isWhitespace).reverse

/-- Decimal value of a digit string. -/
def digitsToNat (cs : List Char) : Nat :=
  cs.foldl (fun n c => n * 10 + (c.toNat - 48)) 0

/-- A non-empty all-digit character list. -/
def isDigitRun (cs : List Char) : Bool :=
  !cs.isEmpty && cs.all Char.isDigit

/-- Python `int(s)` as applied to the comma-separated id filter values:
optional surrounding whitespace, an optional sign, then a non-empty digit
run; anything else raises `ValueError` (`none` here). -/
def pyInt (s : String) : Option Int :=
  match trimChars s.data with
  | '-' :: rest => if isDigitRun rest then some (-(digitsToNat rest : Int)) else none
  | '+' :: rest => if isDigitRun rest then some ((digitsToNat rest : Nat) : Int) else none
  | t => if isDigitRun t then some ((digitsToNat t : Nat) : Int) else none

/-- `[int(i) for i in ids.split(",")]`: `none` when any element raises
`ValueError`. -/
def parseIdList (ids : String) : Option (List Int) :=
  (splitOnComma ids.data []).mapM (fun piece => pyInt ⟨piece⟩)

/-- `GET /vehicles/` (`get_vehicles`, lines 254-262): `if ids:` is Python
truthiness (both `None` and `""` skip the filter); a `ValueError` while
parsing drops the filter (`except ValueError: pass` leaves `query`
unfiltered); then offset/limit pagination. -/
def get_vehicles (startIndex batchSize : Nat) (ids : Option String) (db : DB) :
    List Vehicle :=
  let query := db.vehicles
  let query :=
    match ids with
    | some s =>
        if s = "" then query
        else
          match parseIdList s with
          | some id_list => query.filter (fun v => id_list.contains ((v.id : Nat) : Int))
          | none => query
    | none => query
  (query.drop startIndex).take batchSize

/-- `GET /maintenance/` (`get_maintenance`, lines 264-272), same shape. -/
def get_maintenance (startIndex batchSize : Nat) (ids : Option String) (db : DB) :
    List Maintenance :=
  let query := db.maintenances
  let query :=
    match ids with
    | some s =>
        if s = "" then query
        else
          match parseIdList s with
          | some id_list => query.filter (fun m => id_list.contains ((m.id : Nat) : Int))
          | none => query
    | none => query
  (query.drop startIndex).take batchSize

/-- `GET /part-orders/` (`get_part_orders`, lines 274-282), same shape. -/
def get_part_orders (startIndex batchSize : Nat) (ids : Option String) (db : DB) :
    List PartOrder :=
  let query := db.part_orders
  let query :=
    match ids with
    | some s =>
        if s = "" then query
        else
          match parseIdList s with
          | some id_list => query.filter (fun p => id_list.contains ((p.id : Nat) : Int))
          | none => query
    | none => query
  (query.drop startIndex).take batchSize

/-- The nested vehicle entry `GET /fleet-fabric/sync` is documented to
return; never actually produced by the code (see `get_hierarchical_fleet`). -/
structure HierarchicalVehicle where
  id : Nat
  vin : String
  make : String
  model : String
  maintenance : List (Maintenance × List PartOrder)
deriving Repr, DecidableEq

/-- `GET /fleet-fabric/sync` (`get_hierarchical_fleet`, lines 285-319).
The handler first computes `total_count`, then evaluates
`joinedload(VehicleModel.maintenance_logs)`: `VehicleModel` declares no
relationship or column named `maintenance_logs` (its only mapped attributes
are the eight columns of lines 55-63; the relationships in the file are
`MaintenanceModel.vehicle` and `MaintenanceModel.part_orders`), so this
attribute access raises `AttributeError` on every call, before any row is
returned. -/
def get_hierarchical_fleet (startIndex batchSize : Nat) (db : DB) :
    Except String (List HierarchicalVehicle × Nat) :=
  let _total_count := db.vehicles.length
  let _ := startIndex
  let _ := batchSize
  Except.error "AttributeError: type object VehicleModel has no attribute maintenance_logs"

/-- The spec invariant on vehicle flags: `retired=true` implies
`active=false`, for every stored vehicle (`is_deleted` is the retired flag,
`is_active` the active flag). -/
def retiredNeverActive (db : DB) : Bool :=
  db.vehicles.all (fun v => !v.is_deleted || !v.is_active)

/-! Helper lemmas about row lookup and row replacement. -/

theorem find?_map_replace {α : Type} (idOf : α → Nat) (y : α)
    (l : List α) (x : α) (h : l.find? (fun w => idOf w == idOf y) = some x) :
    (l.map (fun w => if idOf w == idOf y then y else w)).find?
      (fun w => idOf w == idOf y) = some y := by
  induction l with
  | nil => simp at h
  | cons a t ih =>
      cases ha : (idOf a == idOf y) with
      | true => simp [List.find?, ha]
      | false =>
          simp only [List.find?, ha] at h
          simpa [List.find?, ha] using ih h

theorem find?_map_replace_key {α : Type} (idOf : α → Nat) (k : Nat) (y : α)
    (hy : idOf y = k) (l : List α) (x : α)
    (h : l.find? (fun w => idOf w == k) = some x) :
    (l.map (fun w => if idOf w == idOf y then y else w)).find?
      (fun w => idOf w == k) = some y := by
  subst hy
  exact find?_map_replace idOf y l x h

theorem find?_some_id {α : Type} (idOf : α → Nat) (k : Nat)
    (l : List α) (x : α) (h : l.find? (fun w => idOf w == k) = some x) :
    idOf x = k := by
  have := List.find?_some h
  simpa using this

theorem retiredNeverActive_updateVehicle (db : DB) (v : Vehicle)
    (hdb : retiredNeverActive db = true) (hv : (!v.is_deleted || !v.is_active) = true) :
    retiredNeverActive (updateVehicle db v) = true := by
  unfold retiredNeverActive updateVehicle at *
  rw [List.all_eq_true] at hdb ⊢
  intro w hw
  rw [List.mem_map] at hw
  obtain ⟨u, hu, rfl⟩ := hw
  by_cases h : (u.id == v.id) = true
  · simpa [h] using hv
  · simp only [Bool.not_eq_true] at h
    simpa [h] using hdb u hu

theorem retiredNeverActive_append (db : DB) (v : Vehicle)
    (hdb : retiredNeverActive db = true) (hv : (!v.is_deleted || !v.is_active) = true) :
    retiredNeverActive { db with vehicles := db.vehicles ++ [v] } = true := by
  unfold retiredNeverActive at *
  rw [List.all_eq_true] at hdb ⊢
  intro w hw
  rcases List.mem_append.mp hw with hmem | hmem
  · exact hdb w hmem
  · rcases List.mem_singleton.mp hmem with rfl
    exact hv

theorem trigger_sync_never_raises (outcome : SyncResult)
    (vehicle_id maintenance_id part_order_id : Option Nat) :
    trigger_sync outcome vehicle_id maintenance_id part_order_id = Except.ok () := by
  unfold trigger_sync
  cases h : requests_post outcome <;> simp [h]

theorem retiredNeverActive_congr (db db' : DB) (h : db'.vehicles = db.vehicles) :
    retiredNeverActive db' = retiredNeverActive db := by
  unfold retiredNeverActive
  rw [h]

theorem order_parts_vehicles (req : OrderPartsRequest) (now : Nat) (db : DB)
    (o : SyncResult) (p : PartOrder) (db' : DB)
    (h : order_parts req now db o = Except.ok (p, db')) :
    db'.vehicles = db.vehicles := by
  simp only [order_parts] at h
  cases hf : findMaintenance db req.maintenanceId with
  | none => rw [hf] at h; exact absurd h (by simp)
  | some m0 =>
      rw [hf] at h
      simp only [Except.ok.injEq, Prod.mk.injEq] at h
      obtain ⟨-, rfl⟩ := h
      split
      · rfl
      · rfl

/-! Concrete fixtures used by witnesses and counterexamples. -/

def exVehicleActive : Vehicle :=
  { id := 1, vin := "1FTEW1EP5NFA00001", color := "Red", make := "Ford", model := "F-150",
    year := 2022, is_active := true, is_deleted := false, last_service_date := none }

def exVehicleInactive : Vehicle :=
  { id := 2, vin := "4T1BF1FK5HU000002", color := "Blue", make := "Toyota", model := "Camry",
    year := 2020, is_active := false, is_deleted := false, last_service_date := none }

def exVehicleRetired : Vehicle :=
  { id := 3, vin := "5YJ3E1EA7KF000003", color := "White", make := "Tesla", model := "Model 3",
    year := 2019, is_active := false, is_deleted := true, last_service_date := some 4 }

def exMaintOpen : Maintenance :=
  { id := 1, vehicle_id := 2, technician := "Mike S.", maintenance_type_id := 1,
    status_id := MaintenanceStatus.IN_PROGRESS, notes_open := some "Routine check.",
    notes_close := none, created_on := 10, completed_on := none }

def exMaintDone : Maintenance :=
  { id := 2, vehicle_id := 1, technician := "Sarah J.", maintenance_type_id := 2,
    status_id := MaintenanceStatus.COMPLETED, notes_open := none,
    notes_close := some "replaced brakes", created_on := 5, completed_on := some 8 }

def exMaintOrphan : Maintenance :=
  { id := 3, vehicle_id := 99, technician := "Tom B.", maintenance_type_id := 3,
    status_id := MaintenanceStatus.IN_PROGRESS, notes_open := none,
    notes_close := none, created_on := 12, completed_on := none }

def exMaintOnRetired : Maintenance :=
  { id := 4, vehicle_id := 3, technician := "Mike S.", maintenance_type_id := 1,
    status_id := MaintenanceStatus.IN_PROGRESS, notes_open := none,
    notes_close := none, created_on := 14, completed_on := none }

def exPartOrder : PartOrder :=
  { id := 1, maintenance_id := 2, purchase_card_num := "1234", total_amount := 150,
    purchased_on := 6, installed_on := some 7 }

def exDB : DB :=
  { vehicles := [exVehicleActive, exVehicleInactive, exVehicleRetired]
    maintenances := [exMaintOpen, exMaintDone, exMaintOrphan, exMaintOnRetired]
    part_orders := [exPartOrder] }

/-- C1 counterexample: in a database satisfying the retired-implies-inactive
invariant, maintenance 4 is open and owned by vehicle 3, which is retired
(`is_deleted = true`); `complete_maintenance` on it succeeds and leaves a
database violating the invariant, because the handler sets
`vehicle.is_active = True` without checking `is_deleted`.  This refutes the
claim that every lifecycle operation, in particular CompleteMaintenance on a
maintenance whose owning vehicle was retired while it was open, preserves
the invariant. -/
theorem C1_counterexample :
    retiredNeverActive exDB = true ∧
    (findMaintenance exDB 4).map Maintenance.vehicle_id = some 3 ∧
    (findVehicle exDB 3).map Vehicle.is_deleted = some true ∧
    (match complete_maintenance 4 ⟨none⟩ 100 exDB SyncResult.ok with
     | Except.ok p => retiredNeverActive p.2
     | Except.error _ => true) = false := by
  refine ⟨by decide, by decide, by decide, by decide⟩

/-- C1 (amended): the retired-implies-inactive invariant is preserved by
RegisterVehicle, RetireVehicle, StartMaintenance and OrderParts
unconditionally, and by CompleteMaintenance provided the owning vehicle, if
its id resolves, is not retired; CompleteMaintenance on a maintenance whose
owning vehicle was retired while it was open breaks the invariant (see the
counterexample). -/
theorem C1_invariant_preservation (db : DB) (now : Nat) (o : SyncResult)
    (hInv : retiredNeverActive db = true) :
    (∀ req : CreateVehicleRequest, retiredNeverActive (create_vehicle req db o).2 = true) ∧
    (∀ vid v db', retire_vehicle vid db o = Except.ok (v, db') →
      retiredNeverActive db' = true) ∧
    (∀ req m db', start_maintenance req now db o = Except.ok (m, db') →
      retiredNeverActive db' = true) ∧
    (∀ req p db', order_parts req now db o = Except.ok (p, db') →
      retiredNeverActive db' = true) ∧
    (∀ mid req m db' mm, complete_maintenance mid req now db o = Except.ok (m, db') →
      findMaintenance db mid = some mm →
      (∀ v, findVehicle db mm.vehicle_id = some v → v.is_deleted = false) →
      retiredNeverActive db' = true) := by
  refine ⟨?_, ?_, ?_, ?_, ?_⟩
  · intro req
    exact retiredNeverActive_append db _ hInv rfl
  · intro vid v db' h
    simp only [retire_vehicle] at h
    cases hf : findVehicle db vid with
    | none => rw [hf] at h; exact absurd h (by simp)
    | some v0 =>
        rw [hf] at h
        simp only [Except.ok.injEq, Prod.mk.injEq] at h
        obtain ⟨-, rfl⟩ := h
        exact retiredNeverActive_updateVehicle db _ hInv (by simp)
  · intro req m db' h
    simp only [start_maintenance] at h
    cases hf : findVehicle db req.vehicleId with
    | none => rw [hf] at h; exact absurd h (by simp)
    | some v0 =>
        rw [hf] at h
        simp only [Except.ok.injEq, Prod.mk.injEq] at h
        obtain ⟨-, rfl⟩ := h
        exact retiredNeverActive_updateVehicle _ _ hInv (by simp)
  · intro req p db' h
    rw [retiredNeverActive_congr db db' (order_parts_vehicles req now db o p db' h)]
    exact hInv
  · intro mid req m db' mm h hmm hnd
    simp only [complete_maintenance, hmm] at h
    cases hf : findVehicle db mm.vehicle_id with
    | none =>
        rw [hf] at h
        simp only [Except.ok.injEq, Prod.mk.injEq] at h
        obtain ⟨-, rfl⟩ := h
        exact hInv
    | some v =>
        rw [hf] at h
        simp only [Except.ok.injEq, Prod.mk.injEq] at h
        obtain ⟨-, rfl⟩ := h
        exact retiredNeverActive_updateVehicle _ _ hInv (by simp [hnd v hf])

/-- C1 witness: the amended preservation theorem applied to the concrete
fixture database (which satisfies the invariant) and a concrete
RegisterVehicle request. -/
theorem C1_invariant_preservation_witness :
    retiredNeverActive exDB = true ∧
    retiredNeverActive
      (create_vehicle ⟨"2HGFC2F59MH000004", "Green", "Honda", "Civic", 2024⟩
        exDB SyncResult.ok).2 = true :=
  ⟨by decide,
   (C1_invariant_preservation exDB 100 SyncResult.ok (by decide)).1
     ⟨"2HGFC2F59MH000004", "Green", "Honda", "Civic", 2024⟩⟩

/-- C2 counterexample: vehicle 2 of the fixture database exists with
`is_active = false`, yet `start_maintenance` against it succeeds (no
FailedPrecondition) and inserts a new maintenance row; the handler never
inspects `is_active` or `is_deleted`.  This refutes the claim that
StartMaintenance on an existing inactive vehicle fails with
FailedPrecondition and creates no record. -/
theorem C2_counterexample :
    (findVehicle exDB 2).map Vehicle.is_active = some false ∧
    (start_maintenance ⟨2, "Mike S.", 1, none⟩ 50 exDB SyncResult.ok).isOk = true ∧
    (match start_maintenance ⟨2, "Mike S.", 1, none⟩ 50 exDB SyncResult.ok with
     | Except.ok p => p.2.maintenances.length
     | Except.error _ => 0) = exDB.maintenances.length + 1 := by
  refine ⟨by decide, by decide, by decide⟩

/-- C2 (amended): the strict active-vehicle precondition is absent from this
code: StartMaintenance on an existing vehicle whose active flag is false
succeeds, a new in-progress maintenance record is appended, and the vehicle
is stored with its active flag (still) false. -/
theorem C2_start_on_inactive_succeeds (req : StartMaintenanceRequest) (now : Nat)
    (db : DB) (o : SyncResult) (v : Vehicle)
    (hv : findVehicle db req.vehicleId = some v) (hva : v.is_active = false) :
    (start_maintenance req now db o).isOk = true ∧
    ∀ m db', start_maintenance req now db o = Except.ok (m, db') →
      m.status_id = MaintenanceStatus.IN_PROGRESS ∧
      db'.maintenances = db.maintenances ++ [m] ∧
      findVehicle db' req.vehicleId = some { v with is_active := false } := by
  constructor
  · simp only [start_maintenance, hv]
    rfl
  · intro m db' h
    simp only [start_maintenance, hv] at h
    simp only [Except.ok.injEq, Prod.mk.injEq] at h
    obtain ⟨rfl, rfl⟩ := h
    refine ⟨rfl, rfl, ?_⟩
    have hid : v.id = req.vehicleId :=
      find?_some_id Vehicle.id req.vehicleId db.vehicles v hv
    unfold findVehicle at hv
    unfold findVehicle updateVehicle
    exact find?_map_replace_key Vehicle.id req.vehicleId { v with is_active := false }
      hid db.vehicles v hv

/-- C2 witness: the amended theorem applied to the fixture database at
vehicle 2, which is inactive; the call succeeds. -/
theorem C2_start_on_inactive_witness :
    (start_maintenance ⟨2, "Mike S.", 1, none⟩ 50 exDB SyncResult.ok).isOk = true :=
  (C2_start_on_inactive_succeeds ⟨2, "Mike S.", 1, none⟩ 50 exDB SyncResult.ok
    exVehicleInactive (by decide) (by decide)).1

/-- C3: OrderParts on a maintenance id that resolves always succeeds and
appends a new part order referencing that maintenance; if the maintenance
status is not completed it is stored as waiting-for-parts (whatever
non-completed status it had), and if it is completed the maintenance table
is left unchanged. -/
theorem C3_order_parts_contract (req : OrderPartsRequest) (now : Nat) (db : DB)
    (o : SyncResult) (m : Maintenance)
    (hm : findMaintenance db req.maintenanceId = some m) :
    (order_parts req now db o).isOk = true ∧
    ∀ po db', order_parts req now db o = Except.ok (po, db') →
      db'.part_orders = db.part_orders ++ [po] ∧
      po.maintenance_id = req.maintenanceId ∧
      (m.status_id ≠ MaintenanceStatus.COMPLETED →
        findMaintenance db' req.maintenanceId =
          some { m with status_id := MaintenanceStatus.WAITING_FOR_PARTS }) ∧
      (m.status_id = MaintenanceStatus.COMPLETED →
        db'.maintenances = db.maintenances) := by
  constructor
  · simp only [order_parts, hm]
    rfl
  · intro po db' h
    simp only [order_parts, hm] at h
    simp only [Except.ok.injEq, Prod.mk.injEq] at h
    obtain ⟨rfl, rfl⟩ := h
    refine ⟨?_, rfl, ?_, ?_⟩
    · split
      · rfl
      · rfl
    · intro hne
      rw [if_pos hne]
      have hid : m.id = req.maintenanceId :=
        find?_some_id Maintenance.id req.maintenanceId db.maintenances m hm
      unfold findMaintenance at hm
      unfold findMaintenance updateMaintenance
      exact find?_map_replace_key Maintenance.id req.maintenanceId
        { m with status_id := MaintenanceStatus.WAITING_FOR_PARTS } hid db.maintenances m hm
    · intro heq
      rw [if_neg (by simp [heq])]

/-- C3 witness: the contract applied to the fixture database at maintenance
1, whose id resolves; the call succeeds. -/
theorem C3_order_parts_witness :
    (order_parts ⟨1, "1234", 150⟩ 60 exDB SyncResult.ok).isOk = true :=
  (C3_order_parts_contract ⟨1, "1234", 150⟩ 60 exDB SyncResult.ok exMaintOpen
    (by decide)).1

/-- C4: CompleteMaintenance on a maintenance id that resolves, whose stored
owning-vehicle id also resolves, succeeds; the returned maintenance has
status completed, completed timestamp now, and the supplied close notes;
the stored owning vehicle ends with active flag true and last-service
timestamp now while its retired flag and identifying fields (vin, color,
make, model, year) are unchanged; the stored maintenance row equals the
returned one. -/
theorem C4_complete_maintenance_contract (mid : Nat) (req : CompleteMaintenanceRequest)
    (now : Nat) (db : DB) (o : SyncResult) (m : Maintenance) (v : Vehicle)
    (hm : findMaintenance db mid = some m)
    (hv : findVehicle db m.vehicle_id = some v) :
    (complete_maintenance mid req now db o).isOk = true ∧
    ∀ m' db', complete_maintenance mid req now db o = Except.ok (m', db') →
      m'.status_id = MaintenanceStatus.COMPLETED ∧
      m'.completed_on = some now ∧
      m'.notes_close = req.notesClose ∧
      findMaintenance db' mid = some m' ∧
      (findVehicle db' m.vehicle_id).isSome = true ∧
      ∀ v', findVehicle db' m.vehicle_id = some v' →
        v'.is_active = true ∧ v'.last_service_date = some now ∧
        v'.is_deleted = v.is_deleted ∧ v'.vin = v.vin ∧ v'.color = v.color ∧
        v'.make = v.make ∧ v'.model = v.model ∧ v'.year = v.year := by
  constructor
  · simp only [complete_maintenance, hm, hv]
    rfl
  · intro m' db' h
    simp only [complete_maintenance, hm, hv] at h
    simp only [Except.ok.injEq, Prod.mk.injEq] at h
    obtain ⟨rfl, rfl⟩ := h
    have hmid : m.id = mid := find?_some_id Maintenance.id mid db.maintenances m hm
    have hvid : v.id = m.vehicle_id := find?_some_id Vehicle.id m.vehicle_id db.vehicles v hv
    have hfv : findVehicle
        (updateVehicle
          (updateMaintenance db
            { m with
                status_id := MaintenanceStatus.COMPLETED
                completed_on := some now
                notes_close := req.notesClose })
          { v with is_active := true, last_service_date := some now }) m.vehicle_id =
        some { v with is_active := true, last_service_date := some now } := by
      unfold findVehicle at hv
      unfold findVehicle updateVehicle updateMaintenance
      exact find?_map_replace_key Vehicle.id m.vehicle_id
        { v with is_active := true, last_service_date := some now } hvid db.vehicles v hv
    refine ⟨rfl, rfl, rfl, ?_, ?_, ?_⟩
    · unfold findMaintenance at hm
      unfold findMaintenance updateVehicle updateMaintenance
      exact find?_map_replace_key Maintenance.id mid
        { m with
            status_id := MaintenanceStatus.COMPLETED
            completed_on := some now
            notes_close := req.notesClose } hmid db.maintenances m hm
    · rw [hfv]
      rfl
    · intro v' hv'
      rw [hfv] at hv'
      injection hv' with hveq
      subst hveq
      exact ⟨rfl, rfl, rfl, rfl, rfl, rfl, rfl, rfl⟩

/-- C4 witness: the contract applied to the fixture database at maintenance
1, owned by vehicle 2, which resolves; the call succeeds. -/
theorem C4_complete_maintenance_witness :
    (complete_maintenance 1 ⟨some "flushed coolant"⟩ 70 exDB SyncResult.ok).isOk = true :=
  (C4_complete_maintenance_contract 1 ⟨some "flushed coolant"⟩ 70 exDB SyncResult.ok
    exMaintOpen exVehicleInactive (by decide) (by decide)).1

/-- C10: CompleteMaintenance on a maintenance id that resolves while its
stored owning-vehicle id resolves to no vehicle still succeeds (the
`if vehicle:` guard skips the vehicle update): the maintenance is marked
completed with the timestamp and close notes set, and the vehicle table is
untouched. -/
theorem C10_complete_with_orphan_vehicle (mid : Nat) (req : CompleteMaintenanceRequest)
    (now : Nat) (db : DB) (o : SyncResult) (m : Maintenance)
    (hm : findMaintenance db mid = some m)
    (hv : findVehicle db m.vehicle_id = none) :
    (complete_maintenance mid req now db o).isOk = true ∧
    ∀ m' db', complete_maintenance mid req now db o = Except.ok (m', db') →
      m'.status_id = MaintenanceStatus.COMPLETED ∧
      m'.completed_on = some now ∧
      m'.notes_close = req.notesClose ∧
      db'.vehicles = db.vehicles := by
  constructor
  · simp only [complete_maintenance, hm, hv]
    rfl
  · intro m' db' h
    simp only [complete_maintenance, hm, hv] at h
    simp only [Except.ok.injEq, Prod.mk.injEq] at h
    obtain ⟨rfl, rfl⟩ := h
    exact ⟨rfl, rfl, rfl, rfl⟩

/-- C10 witness: maintenance 3 of the fixture database stores vehicle id 99,
which resolves to no vehicle; the call succeeds anyway. -/
theorem C10_complete_with_orphan_vehicle_witness :
    (complete_maintenance 3 ⟨none⟩ 80 exDB SyncResult.ok).isOk = true :=
  (C10_complete_with_orphan_vehicle 3 ⟨none⟩ 80 exDB SyncResult.ok exMaintOrphan
    (by decide) (by decide)).1

/-- C5 (code bug): GET /fleet-fabric/sync never returns the documented
nested page: `get_hierarchical_fleet` evaluates
`joinedload(VehicleModel.maintenance_logs)`, and `VehicleModel` declares no
attribute named `maintenance_logs` (the file's only relationships are
`MaintenanceModel.vehicle` and `MaintenanceModel.part_orders`), so every
call raises AttributeError before a single row is serialized; the claimed
equality with the flat list endpoints is unreachable. -/
theorem C5_hierarchical_sync_always_raises (startIndex batchSize : Nat) (db : DB) :
    get_hierarchical_fleet startIndex batchSize db =
      Except.error
        "AttributeError: type object VehicleModel has no attribute maintenance_logs" :=
  rfl

/-- C6: the outbound change notification can never alter the result of a
lifecycle operation: `trigger_sync` returns normally for every outcome of
the webhook call (network error and timeout are caught and swallowed; a
non-success response is not even an exception since the response is never
inspected), and each handler returns an identical value and database for
any two notification outcomes. -/
theorem C6_notification_failure_swallowed (o1 o2 : SyncResult) (db : DB) (now : Nat) :
    (∀ vi mi pi, trigger_sync o1 vi mi pi = Except.ok ()) ∧
    (∀ req, create_vehicle req db o1 = create_vehicle req db o2) ∧
    (∀ vid, retire_vehicle vid db o1 = retire_vehicle vid db o2) ∧
    (∀ req, start_maintenance req now db o1 = start_maintenance req now db o2) ∧
    (∀ req, order_parts req now db o1 = order_parts req now db o2) ∧
    (∀ mid req, complete_maintenance mid req now db o1 =
      complete_maintenance mid req now db o2) :=
  ⟨fun vi mi pi => trigger_sync_never_raises o1 vi mi pi,
   fun _ => rfl, fun _ => rfl, fun _ => rfl, fun _ => rfl, fun _ _ => rfl⟩

/-- C7: for each of the three List endpoints, an ids filter that parses as a
comma-separated integer list restricts the result to exactly the stored
records whose id is in that set (pagination then applies as in every List
call; ids absent from the store are silently absent, with no error), while
a malformed ids filter is dropped: the result equals the same call with no
filter at all. -/
theorem C7_list_ids_filter (startIndex batchSize : Nat) (s : String) (db : DB)
    (hs : s ≠ "") :
    (∀ idl, parseIdList s = some idl →
      get_vehicles startIndex batchSize (some s) db =
        ((db.vehicles.filter (fun v => idl.contains ((v.id : Nat) : Int))).drop
          startIndex).take batchSize ∧
      get_maintenance startIndex batchSize (some s) db =
        ((db.maintenances.filter (fun m => idl.contains ((m.id : Nat) : Int))).drop
          startIndex).take batchSize ∧
      get_part_orders startIndex batchSize (some s) db =
        ((db.part_orders.filter (fun p => idl.contains ((p.id : Nat) : Int))).drop
          startIndex).take batchSize) ∧
    (parseIdList s = none →
      get_vehicles startIndex batchSize (some s) db =
        get_vehicles startIndex batchSize none db ∧
      get_maintenance startIndex batchSize (some s) db =
        get_maintenance startIndex batchSize none db ∧
      get_part_orders startIndex batchSize (some s) db =
        get_part_orders startIndex batchSize none db) := by
  constructor
  · intro idl hp
    simp only [get_vehicles, get_maintenance, get_part_orders, hp, if_neg hs]
    exact ⟨trivial, trivial, trivial⟩
  · intro hp
    simp only [get_vehicles, get_maintenance, get_part_orders, hp, if_neg hs]
    exact ⟨trivial, trivial, trivial⟩

/-- C7 witness: the filter "2,9999" on the fixture database keeps exactly
the records with id 2 (id 9999 resolves to nothing, without error). -/
theorem C7_list_ids_filter_witness :
    get_vehicles 0 100 (some "2,9999") exDB =
      ((exDB.vehicles.filter
        (fun v => [(2 : Int), 9999].contains ((v.id : Nat) : Int))).drop 0).take 100 ∧
    get_maintenance 0 100 (some "2,9999") exDB =
      ((exDB.maintenances.filter
        (fun m => [(2 : Int), 9999].contains ((m.id : Nat) : Int))).drop 0).take 100 ∧
    get_part_orders 0 100 (some "2,9999") exDB =
      ((exDB.part_orders.filter
        (fun p => [(2 : Int), 9999].contains ((p.id : Nat) : Int))).drop 0).take 100 :=
  (C7_list_ids_filter 0 100 "2,9999" exDB (by decide)).1 [2, 9999] (by decide)

theorem updateVehicle_idem (db : DB) (v : Vehicle) :
    updateVehicle (updateVehicle db v) v = updateVehicle db v := by
  unfold updateVehicle
  simp only [List.map_map, DB.mk.injEq]
  refine ⟨?_, trivial, trivial⟩
  apply List.map_congr_left
  intro w _
  by_cases h : (w.id == v.id) = true
  · simp [Function.comp, h]
  · simp only [Bool.not_eq_true] at h
    simp [Function.comp, h]

/-- C8: RetireVehicle fails with 404 NotFound when the vehicle id does not
resolve (no row is written); when it resolves, the vehicle is returned and
stored with retired flag true and active flag false; and retiring again is
state-wise idempotent: the second call returns exactly the same vehicle and
the same database as the first. -/
theorem C8_retire_contract (db : DB) (o : SyncResult) (vid : Nat) :
    (findVehicle db vid = none →
      retire_vehicle vid db o = Except.error ⟨404, "Vehicle not found"⟩) ∧
    ∀ v, findVehicle db vid = some v →
      retire_vehicle vid db o =
        Except.ok ({ v with is_deleted := true, is_active := false },
          updateVehicle db { v with is_deleted := true, is_active := false }) ∧
      findVehicle (updateVehicle db { v with is_deleted := true, is_active := false })
          vid = some { v with is_deleted := true, is_active := false } ∧
      retire_vehicle vid
          (updateVehicle db { v with is_deleted := true, is_active := false }) o =
        Except.ok ({ v with is_deleted := true, is_active := false },
          updateVehicle db { v with is_deleted := true, is_active := false }) := by
  constructor
  · intro h
    simp only [retire_vehicle, h]
  · intro v hv
    have hid : v.id = vid := find?_some_id Vehicle.id vid db.vehicles v hv
    have hfind : findVehicle
        (updateVehicle db { v with is_deleted := true, is_active := false }) vid =
        some { v with is_deleted := true, is_active := false } := by
      unfold findVehicle at hv
      unfold findVehicle updateVehicle
      exact find?_map_replace_key Vehicle.id vid
        { v with is_deleted := true, is_active := false } hid db.vehicles v hv
    refine ⟨?_, hfind, ?_⟩
    · simp only [retire_vehicle, hv]
    · simp only [retire_vehicle, hfind]
      exact congrArg
        (fun d => Except.ok ({ v with is_deleted := true, is_active := false }, d))
        (updateVehicle_idem db { v with is_deleted := true, is_active := false })

/-- C8 witness: retiring vehicle 1 of the fixture database returns it with
retired flag true and active flag false, committing the same row. -/
theorem C8_retire_contract_witness :
    retire_vehicle 1 exDB SyncResult.ok =
      Except.ok ({ exVehicleActive with is_deleted := true, is_active := false },
        updateVehicle exDB { exVehicleActive with is_deleted := true, is_active := false }) :=
  ((C8_retire_contract exDB SyncResult.ok 1).2 exVehicleActive (by decide)).1

/-- C9 counterexample: a registration body carrying make, model and year but
neither vin nor color is rejected by the pydantic validation of
CreateVehicleRequest, because every one of its five declared fields has no
default and is therefore required; this refutes the claim that vin and
color are optional. -/
theorem C9_counterexample :
    CreateVehicleRequest.validate
      { vin := none, color := none, make := some "Ford", model := some "F-150",
        year := some 2022 } = none := by
  decide

/-- C9 (amended): RegisterVehicle requires all five fields — vin, color,
make, model and year; a body validates exactly when all five are present —
and every accepted registration creates a vehicle with active flag true and
retired flag false. -/
theorem C9_register_contract (raw : RawCreateVehicleInput) (db : DB) (o : SyncResult) :
    ((CreateVehicleRequest.validate raw).isSome = true ↔
      raw.vin.isSome = true ∧ raw.color.isSome = true ∧ raw.make.isSome = true ∧
      raw.model.isSome = true ∧ raw.year.isSome = true) ∧
    ∀ req, CreateVehicleRequest.validate raw = some req →
      (create_vehicle req db o).1.is_active = true ∧
      (create_vehicle req db o).1.is_deleted = false := by
  obtain ⟨vin?, color?, make?, model?, year?⟩ := raw
  constructor
  · cases vin? <;> cases color? <;> cases make? <;> cases model? <;> cases year? <;>
      simp [CreateVehicleRequest.validate]
  · intro req h
    exact ⟨rfl, rfl⟩

/-- C9 witness: a fully populated registration validates and the created
vehicle starts active and not retired. -/
theorem C9_register_contract_witness :
    (create_vehicle ⟨"JHMFC1F30MX000005", "Black", "Honda", "Accord", 2021⟩
      exDB SyncResult.ok).1.is_active = true ∧
    (create_vehicle ⟨"JHMFC1F30MX000005", "Black", "Honda", "Accord", 2021⟩
      exDB SyncResult.ok).1.is_deleted = false :=
  (C9_register_contract
    { vin := some "JHMFC1F30MX000005", color := some "Black", make := some "Honda",
      model := some "Accord", year := some 2021 } exDB SyncResult.ok).2
    ⟨"JHMFC1F30MX000005", "Black", "Honda", "Accord", 2021⟩ (by decide)

end FleetMgmt
